import Mathlib

set_option maxHeartbeats 1000000

namespace NodeSculptor

/-- JavaScript runtime values, as far as the library stores and compares them:
the values a caller can pass to `state`, to a handler slot, or that the emitted
client runtime keeps in its reactive store.  Functions are kept as their source
text, mirroring the `fn.toString()` serialization boundary of the library. -/
inductive JsVal where
  | undefined
  | null
  | bool (b : Bool)
  | num (n : Int)
  | str (s : String)
  | func (src : String)
deriving DecidableEq, Repr

/-- Mirror of the JS check `typeof fn === 'function'`. -/
def JsVal.isFunc : JsVal → Bool
  | .func _ => true
  | _ => false

/-- A structured-document node: a text node, or an element as produced by
`document.createElement` and mutated by the builder. -/
inductive DomNode where
  | textNode (s : String)
  | elem (tag : String) (id : String) (classes : List String)
      (attrs : List (String × String)) (children : List DomNode)

/-- The element wrapped by a `NodeElement`: `createElement(tag)` yields an element
with empty id, no classes, no attributes and no children. -/
structure ElementData where
  tag : String
  id : String := ""
  classes : List String := []
  attrs : List (String × String) := []
  children : List DomNode := []

def ElementData.toNode (e : ElementData) : DomNode :=
  .elem e.tag e.id e.classes e.attrs e.children

/-- Modelled from the spec: the external document serializer (jsdom `serialize`,
out of scope for the repository) renders element text content "escaped, never
raw-HTML injection"; the HTML special characters become entities. -/
def escapeChar (c : Char) : String :=
  if c = '&' then "&amp;"
  else if c = '<' then "&lt;"
  else if c = '>' then "&gt;"
  else String.singleton c

/-- Escape a whole text-node payload character by character. -/
def escapeText (s : String) : String :=
  String.mk ((s.data.map (fun c => (escapeChar c).data)).flatten)

def serializeAttrs (attrs : List (String × String)) : String :=
  String.join (attrs.map (fun p => " " ++ p.1 ++ "=\"" ++ p.2 ++ "\""))

/-- The open tag of an element: tag name, then `id`, `class` and the remaining
attributes, in the order jsdom serializes the properties set by the builder. -/
def serializeOpenTag (tag id : String) (classes : List String)
    (attrs : List (String × String)) : String :=
  "<" ++ tag
    ++ (if id = "" then "" else " id=\"" ++ id ++ "\"")
    ++ (if classes = [] then "" else " class=\"" ++ String.intercalate " " classes ++ "\"")
    ++ serializeAttrs attrs ++ ">"

mutual

/-- Modelled from the spec: serialization of one node to HTML text, with the
element's text children escaped. -/
def serializeNode : DomNode → String
  | .textNode s => escapeText s
  | .elem tag id classes attrs children =>
      serializeOpenTag tag id classes attrs
        ++ serializeNodes children ++ "</" ++ tag ++ ">"

/-- Serialization of a child list, in document order. -/
def serializeNodes : List DomNode → String
  | [] => ""
  | c :: cs => serializeNode c ++ serializeNodes cs

end

/-! JS object semantics: property assignment `o[k] = v` keeps a key's original
insertion position on overwrite and appends new keys at the end; `o[k]` reads
yield `undefined` when the key is absent. -/

def setKey {α : Type} : List (String × α) → String → α → List (String × α)
  | [], k, v => [(k, v)]
  | p :: t, k, v => if p.1 = k then (k, v) :: t else p :: setKey t k v

def getKey {α : Type} : List (String × α) → String → Option α
  | [], _ => none
  | p :: t, k => if p.1 = k then some p.2 else getKey t k

/-- `t[k]` in the emitted proxy handler: an absent property reads as JS undefined. -/
def getProp (l : List (String × JsVal)) (k : String) : JsVal :=
  (getKey l k).getD .undefined

/-! `JSON.stringify` as used on the `refs` and `stateBuffer` objects. -/

def jsonEscapeChar (c : Char) : String :=
  if c = '"' then "\\\"" else if c = '\\' then "\\\\" else String.singleton c

def jsonString (s : String) : String :=
  "\"" ++ String.join (s.data.map jsonEscapeChar) ++ "\""

/-- Values `JSON.stringify` keeps as object properties (it drops `undefined`
and function-valued properties). -/
def jsonValOk : JsVal → Bool
  | .undefined => false
  | .func _ => false
  | _ => true

def jsonOfVal : JsVal → String
  | .undefined => ""
  | .null => "null"
  | .bool b => if b then "true" else "false"
  | .num n => toString n
  | .str s => jsonString s
  | .func _ => ""

def jsonOfRefs (refs : List (String × String)) : String :=
  "\x7b" ++ String.intercalate ","
    (refs.map (fun p => jsonString p.1 ++ ":" ++ jsonString p.2)) ++ "\x7d"

def jsonOfState (st : List (String × JsVal)) : String :=
  "\x7b" ++ String.intercalate ","
    ((st.filter (fun p => jsonValOk p.2)).map
      (fun p => jsonString p.1 ++ ":" ++ jsonOfVal p.2)) ++ "\x7d"

/-! The `crush` minifier from `part_000`'s `render`: strip comments, collapse
whitespace runs to one space, tighten braces and semicolons, trim. -/

def isWs (c : Char) : Bool :=
  c = ' ' || c = '\n' || c = '\t' || c = '\r'

/-- State machine for the comment-stripping regex
`/\*[\s\S]*?\*\/|\/\/.*` applied globally: block comments are removed only when
terminated (the non-greedy match needs a closing delimiter), line comments run
to the end of the line. -/
inductive CrushMode where
  | code
  | sawSlash
  | block (pending : List Char)
  | blockStar (pending : List Char)
  | line

def stripCommentsStep (st : List Char × CrushMode) (c : Char) :
    List Char × CrushMode :=
  match st, c with
  | (out, .code), '/' => (out, .sawSlash)
  | (out, .code), _ => (out ++ [c], .code)
  | (out, .sawSlash), '*' => (out, .block ['/', '*'])
  | (out, .sawSlash), '/' => (out, .line)
  | (out, .sawSlash), _ => (out ++ ['/', c], .code)
  | (out, .block p), '*' => (out, .blockStar (p ++ ['*']))
  | (out, .block p), _ => (out, .block (p ++ [c]))
  | (out, .blockStar _), '/' => (out, .code)
  | (out, .blockStar p), '*' => (out, .blockStar (p ++ ['*']))
  | (out, .blockStar p), _ => (out, .block (p ++ [c]))
  | (out, .line), '\n' => (out ++ ['\n'], .code)
  | (out, .line), _ => (out, .line)

def stripComments (l : List Char) : List Char :=
  match l.foldl stripCommentsStep ([], .code) with
  | (out, .sawSlash) => out ++ ['/']
  | (out, .block p) => out ++ p
  | (out, .blockStar p) => out ++ p
  | (out, _) => out

/-- `.replace(/\s+/g, ' ')`: every run of whitespace becomes a single space. -/
def collapseWsStep (st : List Char × Bool) (c : Char) : List Char × Bool :=
  if isWs c then
    if st.2 then st else (st.1 ++ [' '], true)
  else (st.1 ++ [c], false)

def collapseWs (l : List Char) : List Char :=
  (l.foldl collapseWsStep ([], false)).1

/-- `.replace(/t\s+/g, 't')` on whitespace-collapsed text: drop the single
space that follows the given character. -/
def dropSpaceAfter (t : Char) : List Char → List Char
  | [] => []
  | c :: ' ' :: rest =>
      if c = t then c :: dropSpaceAfter t rest
      else c :: dropSpaceAfter t (' ' :: rest)
  | c :: rest => c :: dropSpaceAfter t rest

/-- `.replace(/\s+t/g, 't')` on whitespace-collapsed text: drop the single
space that precedes the given character. -/
def dropSpaceBefore (t : Char) : List Char → List Char
  | [] => []
  | ' ' :: c :: rest =>
      if c = t then c :: dropSpaceBefore t rest
      else ' ' :: dropSpaceBefore t (c :: rest)
  | c :: rest => c :: dropSpaceBefore t rest

/-- `.trim()`: strip leading and trailing whitespace. -/
def trimChars (l : List Char) : List Char :=
  ((l.dropWhile isWs).reverse.dropWhile isWs).reverse

def crush (js : String) : String :=
  String.mk
    (trimChars
      (dropSpaceAfter ';'
        (dropSpaceBefore '\x7d'
          (dropSpaceAfter '\x7b'
            (collapseWs (stripComments js.data))))))

/-! CSS helpers shared by every `defineClass` variant. -/

/-- `prop.replace(/[A-Z]/g, m => "-" + m.toLowerCase())`. -/
def kebabChar (c : Char) : String :=
  if c.isUpper then "-" ++ String.singleton c.toLower else String.singleton c

def kebab (s : String) : String :=
  String.join (s.data.map kebabChar)

/-- `Object.entries(rules).map(([prop, val]) => ...).join(' ')`. -/
def cssDecls (rules : List (String × String)) : String :=
  String.intercalate " " (rules.map (fun p => kebab p.1 ++ ": " ++ p.2 ++ ";"))

/-- The pushed rule text `` `${finalSelector} { ${cssString} }` ``. -/
def cssRuleText (sel : String) (rules : List (String × String)) : String :=
  sel ++ " \x7b " ++ cssDecls rules ++ " \x7d"

/-! The document shell.  A fresh JSDOM holds
`<head>` with a charset meta, a viewport meta and an empty `<title>`, and an
empty `<body>`; `title` models the `<title>` text, `headExtra` the children the
engine appends after it, `body` the body children. -/

inductive HeadChild where
  | metaTag (attrs : List (String × String))
  | scriptSrc (src : String)
  | cssLink (href : String)
  | iconLink (href : String)
  | styleTag (text : String)
deriving DecidableEq, Repr

/-- The structured content of the trailing script tag emitted by `part_000`'s
`render`: the reference lookup table and state seed injected into the runtime
template, the buffered behavior statements and the buffered load callbacks. -/
structure Runtime where
  refs : List (String × String)
  state : List (String × JsVal)
  stmts : List String
  load : List String
deriving DecidableEq, Repr

inductive BodyNode where
  | node (n : DomNode)
  | scriptNode (rt : Runtime)
  | scriptRaw (text : String)

structure Doc where
  title : String
  headExtra : List HeadChild
  body : List BodyNode

/-- The document of a freshly constructed JSDOM shell. -/
def Doc.init : Doc := { title := "", headExtra := [], body := [] }

def serializeHeadChild : HeadChild → String
  | .metaTag attrs => "<meta" ++ serializeAttrs attrs ++ ">"
  | .scriptSrc src => "<script src=\"" ++ src ++ "\"></script>"
  | .cssLink href => "<link rel=\"stylesheet\" href=\"" ++ href ++ "\">"
  | .iconLink href =>
      "<link rel=\"shortcut icon\" href=\"" ++ href ++ "\" type=\"image/x-icon\">"
  | .styleTag text => "<style>" ++ text ++ "</style>"

/-- The template literal `runtime` of `part_000`'s `render` with the two
`JSON.stringify` results substituted in. -/
def runtimeTemplate (refsJson stateJson : String) : String :=
  "\n                window.UI=\x7b_m:" ++ refsJson
  ++ ",get:(n)=>document.getElementById(window.UI._m[n])\x7d;\n"
  ++ "                const _cbs=\x7b\x7d;"
  ++ "window.watchState=(k,f)=>\x7b(_cbs[k]=_cbs[k]||[]).push(f)\x7d;\n"
  ++ "                window.State=new Proxy(" ++ stateJson ++ ", \x7b\n"
  ++ "                    set(t,k,v)\x7bif(t[k]===v)return true;t[k]=v;"
  ++ "if(_cbs[k])_cbs[k].forEach(f=>f(v));return true\x7d\n"
  ++ "                \x7d);\n            "

/-- The `scriptTag.textContent` assembled by `part_000`'s `render`. -/
def runtimeScriptText (rt : Runtime) : String :=
  "(function()\x7b"
  ++ crush (runtimeTemplate (jsonOfRefs rt.refs) (jsonOfState rt.state))
  ++ crush (String.join rt.stmts)
  ++ "window.addEventListener('load',()=>\x7b" ++ crush (String.join rt.load)
  ++ "\x7d)\x7d)()"

def serializeBodyNode : BodyNode → String
  | .node n => serializeNode n
  | .scriptNode rt => "<script>" ++ runtimeScriptText rt ++ "</script>"
  | .scriptRaw text => "<script>" ++ text ++ "</script>"

/-- Modelled from the spec: `dom.serialize()` of the shell described above
(the serializer itself lives in the external document library). -/
def serializeDoc (d : Doc) : String :=
  "<!DOCTYPE html><html lang=\"en\"><head><meta charset=\"UTF-8\">"
  ++ "<meta name=\"viewport\" content=\"width=device-width, initial-scale=1.0\">"
  ++ "<title>" ++ escapeText d.title ++ "</title>"
  ++ String.join (d.headExtra.map serializeHeadChild)
  ++ "</head><body>"
  ++ String.join (d.body.map serializeBodyNode)
  ++ "</body></html>"

/-- The `Array.isArray(x) ? x : [x]` normalization applied to `class`,
`config.meta`, `config.scripts`, `config.css` and the `render` root. -/
inductive SingleOrMany (α : Type) where
  | one (a : α)
  | many (l : List α)

def SingleOrMany.toList {α : Type} : SingleOrMany α → List α
  | .one a => [a]
  | .many l => l

/-- One entry of the value passed as `render`'s root: a builder `NodeElement`,
a raw document node, a falsy value, or a value that `appendChild` rejects
(the carried string is the message of the error the document library throws). -/
inductive RootItem where
  | nodeEl (ed : ElementData)
  | raw (n : DomNode)
  | falsy
  | invalid (msg : String)

/-- Modelled from the spec: the message of the error the external document
library throws when `appendChild` receives a value that is not a node. -/
def appendChildErr : String := "Could not convert argument to a Node."

/-- An item the mounting loop cannot append (it throws instead). -/
def RootItem.isBad : RootItem → Bool
  | .falsy => true
  | .invalid _ => true
  | _ => false

/-- The body child a good root item mounts as (junk on bad items, which the
mounting lemmas exclude). -/
def RootItem.toBody : RootItem → BodyNode
  | .nodeEl ed => .node ed.toNode
  | .raw n => .node n
  | .falsy => .node (.textNode "")
  | .invalid _ => .node (.textNode "")

namespace P0

/-! Embedding of the `Sculptor`/`NodeElement` pair defined at lines 1-271 of
`src/unnamed/part_000` (the variant with per-instance JSDOM, random
identifiers, `ref`/`bind`/`state` and the emitted reactive runtime). -/

/-- Engine state of the `Sculptor` class (constructor, lines 87-98): the
constructor creates a fresh JSDOM of its own (`this.dom = new JSDOM(...)`), so
the document is a per-instance field.  `rand` models the stream of base-36
fraction strings produced by successive `Math.random().toString(36)` calls
(the part after `0.`), `randIdx` counts the draws consumed so far. -/
structure Engine where
  doc : Doc := Doc.init
  scriptBuffer : List String := []
  styleBuffer : List String := []
  loadBuffer : List String := []
  stateBuffer : List (String × JsVal) := []
  refs : List (String × String) := []
  lastRendered : String := ""
  rand : Nat → String
  randIdx : Nat := 0

/-- `generateId`, lines 130-132:
`` `_${Math.random().toString(36).substring(2, 9)}` `` — an underscore plus
the first seven fraction characters of a fresh random draw. -/
def generateId (e : Engine) : String × Engine :=
  ("_" ++ (e.rand e.randIdx).take 7, { e with randIdx := e.randIdx + 1 })

/-- `generateClassName`, lines 134-136:
`` `_${Math.random().toString(36).substring(2, 7)}` ``. -/
def generateClassName (e : Engine) : String × Engine :=
  ("_" ++ (e.rand e.randIdx).take 5, { e with randIdx := e.randIdx + 1 })

/-- `state(key, value)`, lines 125-128: `this.stateBuffer[key] = value`. -/
def state (e : Engine) (key : String) (value : JsVal) : Engine :=
  { e with stateBuffer := setKey e.stateBuffer key value }

/-- `defineClass(selector, rules, isRawSelector)`, lines 109-123. -/
def defineClass (e : Engine) (selector : String) (rules : List (String × String))
    (isRawSelector : Bool := false) : Engine :=
  let finalSelector := if isRawSelector then selector else "." ++ selector
  { e with styleBuffer := e.styleBuffer ++ [cssRuleText finalSelector rules] }

/-- `sharedClass(name, rules)`, lines 104-107. -/
def sharedClass (e : Engine) (name : String) (rules : List (String × String)) :
    Engine :=
  defineClass e name rules

/-- `globalStyle(selector, rules)`, lines 100-102. -/
def globalStyle (e : Engine) (selector : String) (rules : List (String × String)) :
    Engine :=
  defineClass e selector rules true

/-- `oncreate(fn)`, lines 138-142: a non-function throws before anything is
pushed; a function is stringified and buffered as an immediate invocation. -/
def oncreate (e : Engine) (fn : JsVal) : Except String Engine :=
  match fn with
  | .func src =>
      .ok { e with loadBuffer := e.loadBuffer ++ ["(" ++ src ++ ")();"] }
  | _ => .error "[NodeSculptor] .oncreate() expects a function."

/-- `create(tag)`, line 144, wraps `document.createElement(tag)`; the tag
shorthands `div()`, `button()`, ... (lines 146-172) all delegate to it. -/
def create (tag : String) : ElementData := { tag := tag }

/-- `classList.add(...list)`: each name is appended unless already present. -/
def addClassList (classes : List String) (new : List String) : List String :=
  new.foldl (fun acc n => if acc.contains n then acc else acc ++ [n]) classes

namespace NodeElement

/-- `id(value)`, line 20. -/
def id (el : ElementData) (value : String) : ElementData :=
  { el with id := value }

/-- `text(value)`, line 21: `this.el.textContent = value` replaces the
element's children with a single text node holding the string. -/
def text (el : ElementData) (value : String) : ElementData :=
  { el with children := [.textNode value] }

/-- `ref(name)`, lines 23-27: generate an id only when the element has none
(`!this.el.id` — the DOM reflects a missing id as the empty string), then
record `refs[name] = this.el.id`. -/
def ref (el : ElementData) (e : Engine) (name : String) : ElementData × Engine :=
  let p :=
    if el.id = "" then
      let (i, e') := generateId e
      ({ el with id := i }, e')
    else (el, e)
  (p.1, { p.2 with refs := setKey p.2.refs name p.1.id })

/-- `class(value)`, lines 29-37. -/
def class' (el : ElementData) (value : SingleOrMany String) : ElementData :=
  { el with classes := addClassList el.classes value.toList }

/-- `attribute(key, value)`, line 39 (`attribute` is a Lean keyword, hence
the shortened Lean name). -/
def attr (el : ElementData) (key value : String) : ElementData :=
  { el with attrs := setKey el.attrs key value }

/-- `uniqueClass(rules)`, lines 42-47. -/
def uniqueClass (el : ElementData) (e : Engine) (rules : List (String × String)) :
    ElementData × Engine :=
  let (name, e1) := generateClassName e
  let e2 := defineClass e1 name rules
  ({ el with classes := addClassList el.classes [name] }, e2)

/-- The statement `bind` pushes onto the script buffer (lines 51-56). -/
def bindStmt (stateKey elId fnSrc : String) : String :=
  "window.watchState('" ++ stateKey ++ "', (val) => \x7b \n"
  ++ "                const el = document.getElementById('" ++ elId ++ "');\n"
  ++ "                if (el) el.textContent = (" ++ fnSrc ++ ")(val); \n"
  ++ "            \x7d);"

/-- `bind(stateKey, templateFn)`, lines 49-58: ensure an id, then buffer a
`watchState` statement; the default transform is the identity arrow. -/
def bind (el : ElementData) (e : Engine) (stateKey : String)
    (fnSrc : String := "(val) => val") : ElementData × Engine :=
  let p :=
    if el.id = "" then
      let (i, e') := generateId e
      ({ el with id := i }, e')
    else (el, e)
  (p.1, { p.2 with
          scriptBuffer := p.2.scriptBuffer ++ [bindStmt stateKey p.1.id fnSrc] })

/-- `on(event, fn)`, lines 65-73 (`on` is a notation token in Lean, hence the
Lean name `onEv`): a non-function throws immediately, before the id
assignment and before anything is pushed. -/
def onEv (el : ElementData) (e : Engine) (event : String) (fn : JsVal) :
    Except String (ElementData × Engine) :=
  match fn with
  | .func src =>
      let p :=
        if el.id = "" then
          let (i, e') := generateId e
          ({ el with id := i }, e')
        else (el, e)
      .ok (p.1, { p.2 with scriptBuffer := p.2.scriptBuffer ++
            ["document.getElementById('" ++ p.1.id ++ "').addEventListener('"
              ++ event ++ "', " ++ src ++ ");"] })
  | _ => .error "[NodeSculptor] .on expects a function."

/-- `click(fn)`, line 75. -/
def click (el : ElementData) (e : Engine) (fn : JsVal) :
    Except String (ElementData × Engine) :=
  onEv el e "click" fn

/-- `oncreate(fn)` on a node, lines 60-63, delegates to the engine. -/
def oncreate (el : ElementData) (e : Engine) (fn : JsVal) :
    Except String (ElementData × Engine) :=
  (P0.oncreate e fn).map (fun e' => (el, e'))

end NodeElement

/-- A hook registration on one node, as quantified over by the identifier
invariant: `ref`, `bind`, `on` or `click` (the latter two with a function
argument, given by source text, so the callable check passes). -/
inductive Hook where
  | refH (name : String)
  | bindH (stateKey : String) (fnSrc : String)
  | onH (event : String) (fnSrc : String)
  | clickH (fnSrc : String)

def applyHook (p : ElementData × Engine) : Hook → ElementData × Engine
  | .refH name => NodeElement.ref p.1 p.2 name
  | .bindH k src => NodeElement.bind p.1 p.2 k src
  | .onH ev src =>
      match NodeElement.onEv p.1 p.2 ev (.func src) with
      | .ok q => q
      | .error _ => p
  | .clickH src =>
      match NodeElement.click p.1 p.2 (.func src) with
      | .ok q => q
      | .error _ => p

def applyHooks (p : ElementData × Engine) (hs : List Hook) : ElementData × Engine :=
  hs.foldl applyHook p

/-- The `config` object accepted by `render` (lines 174-259).  `metaTags`
models `config.meta`. -/
structure Config where
  title : Option String := none
  metaTags : Option (SingleOrMany (List (String × String))) := none
  scripts : Option (SingleOrMany String) := none
  css : Option (SingleOrMany String) := none
  icon : Option String := none

/-- `config.title || "Sculpted Page"` (line 187): absent or empty falls back. -/
def titleOf (cfg : Config) : String :=
  match cfg.title with
  | some t => if t = "" then "Sculpted Page" else t
  | none => "Sculpted Page"

/-- `if (config.scripts) { Array.isArray(...) ? ... : [...] }`: absent or an
empty single string (falsy) contributes nothing; an array is always truthy. -/
def strListOf : Option (SingleOrMany String) → List String
  | none => []
  | some (.one s) => if s = "" then [] else [s]
  | some (.many l) => l

def metasOf : Option (SingleOrMany (List (String × String))) →
    List (List (String × String))
  | none => []
  | some (.one m) => [m]
  | some (.many l) => l

/-- `if (config.icon)` (lines 219-223): absent or empty string is falsy. -/
def iconOf : Option String → List HeadChild
  | none => []
  | some u => if u = "" then [] else [.iconLink u]

/-- The head children one `render` call appends (lines 190-230), in source
order: meta tags, external scripts, external stylesheets, favicon, then the
flushed inline stylesheet (only when the style buffer is non-empty,
`crush`-compacted and joined with spaces). -/
def headAdds (cfg : Config) (styleBuf : List String) : List HeadChild :=
  (metasOf cfg.metaTags).map .metaTag
  ++ (strListOf cfg.scripts).map .scriptSrc
  ++ (strListOf cfg.css).map .cssLink
  ++ iconOf cfg.icon
  ++ (if styleBuf = [] then []
      else [.styleTag (crush (String.intercalate " " styleBuf))])

/-- The root-mounting loop (lines 232-236): append each item to the body in
order; a falsy or non-node item makes `appendChild` throw, with the items
before it already appended. -/
def mountItems (acc : List BodyNode) : List RootItem → List BodyNode × Option String
  | [] => (acc, none)
  | .nodeEl ed :: rest => mountItems (acc ++ [.node ed.toNode]) rest
  | .raw n :: rest => mountItems (acc ++ [.node n]) rest
  | .falsy :: _ => (acc, some appendChildErr)
  | .invalid msg :: _ => (acc, some msg)

/-- `render(root, config)`, lines 174-259.  The whole body runs in a
`try`; on a throw the catch logs `[NodeSculptor Render Error] ...` and the
method returns normally, with every mutation made before the throw kept and
`lastRendered` (assigned last, line 254) untouched.  The returned list holds
the `console.error` lines of the call. -/
def render (e : Engine) (root : SingleOrMany RootItem) (cfg : Config) :
    Engine × List String :=
  let doc1 : Doc := { e.doc with title := titleOf cfg, body := [] }
  let doc2 : Doc := { doc1 with headExtra := doc1.headExtra ++ headAdds cfg e.styleBuffer }
  let e2 : Engine := { e with doc := doc2, styleBuffer := [] }
  match mountItems doc2.body root.toList with
  | (partialBody, some msg) =>
      ({ e2 with doc := { doc2 with body := partialBody } },
       ["[NodeSculptor Render Error] " ++ msg])
  | (body1, none) =>
      let rt : Runtime :=
        { refs := e.refs, state := e.stateBuffer,
          stmts := e.scriptBuffer, load := e.loadBuffer }
      let doc3 : Doc := { doc2 with body := body1 ++ [BodyNode.scriptNode rt] }
      ({ e2 with
          doc := doc3, scriptBuffer := [], loadBuffer := [], refs := [],
          lastRendered := serializeDoc doc3 }, [])

/-- `output()`, lines 266-268. -/
def output (e : Engine) : String := e.lastRendered

/-- The trailing script tag of a rendered document, when present. -/
def runtimeOf (d : Doc) : Option Runtime :=
  match d.body.getLast? with
  | some (.scriptNode rt) => some rt
  | _ => none

/-- The `set` trap of the emitted `window.State` proxy (runtime template,
lines 241-243): `set(t,k,v){if(t[k]===v)return true;t[k]=v;`
`if(_cbs[k])_cbs[k].forEach(f=>f(v));return true}`.  `regs` lists the
`watchState` registrations as (key, callback source) pairs in registration
order; the second component of the result is the sequence of callbacks
dispatched, in order. -/
def proxySet (store : List (String × JsVal)) (regs : List (String × String))
    (k : String) (v : JsVal) : List (String × JsVal) × List String :=
  if getProp store k = v then (store, [])
  else (setKey store k v, (regs.filter (fun p => p.1 = k)).map (fun p => p.2))

/-- An engine-level operation, for stating cross-instance isolation: every
builder call that mutates engine state, and `render`. -/
inductive EngineOp where
  | stateOp (key : String) (value : JsVal)
  | defineClassOp (selector : String) (rules : List (String × String)) (isRaw : Bool)
  | oncreateOp (src : String)
  | renderOp (root : SingleOrMany RootItem) (cfg : Config)

def applyOp (e : Engine) : EngineOp → Engine
  | .stateOp k v => state e k v
  | .defineClassOp s r b => defineClass e s r b
  | .oncreateOp src =>
      match oncreate e (.func src) with
      | .ok e2 => e2
      | .error _ => e
  | .renderOp root cfg => (render e root cfg).1

def applyOps (e : Engine) (ops : List EngineOp) : Engine :=
  ops.foldl applyOp e

end P0

namespace SJ

/-! Embedding of `src/Sculptor.js`.  Its JSDOM is created at module level
(lines 4-5: `let dom = new JSDOM(...)`, `let document = dom.window.document`),
so every `Sculptor` instance of this module shares one document; the engine
state below therefore has no document field, and the operations that touch the
document take and return the shared `Doc` explicitly. -/

/-- Engine state of the `Sculptor` class (constructor, lines 70-78). -/
structure Engine where
  scriptBuffer : List String := []
  styleBuffer : List String := []
  loadBuffer : List String := []
  idCounter : Nat := 0
  classCounter : Nat := 0
  lastRendered : String := ""
  rand : Nat → String
  randIdx : Nat := 0

/-- `generateId`, lines 91-94: increment the counter, then
`` `sc-id-${this.idCounter}-${Math.random().toString(36).substring(2, 5)}` ``
— the counter in decimal and a three-character random suffix. -/
def generateId (e : Engine) : String × Engine :=
  ("sc-id-" ++ Nat.repr (e.idCounter + 1) ++ "-" ++ (e.rand e.randIdx).take 3,
   { e with idCounter := e.idCounter + 1, randIdx := e.randIdx + 1 })

/-- `generateClassName`, lines 96-99: `` `sc-cls-${this.classCounter}` ``. -/
def generateClassName (e : Engine) : String × Engine :=
  ("sc-cls-" ++ Nat.repr (e.classCounter + 1),
   { e with classCounter := e.classCounter + 1 })

/-- `defineClass(name, rules)`, lines 101-113 (always a class selector). -/
def defineClass (e : Engine) (name : String) (rules : List (String × String)) :
    Engine :=
  { e with styleBuffer := e.styleBuffer ++ [cssRuleText ("." ++ name) rules] }

/-- `sharedClass(name, rules)`, lines 80-83. -/
def sharedClass (e : Engine) (name : String) (rules : List (String × String)) :
    Engine :=
  defineClass e name rules

/-- `oncreate(fn)`, lines 85-89. -/
def oncreate (e : Engine) (fn : JsVal) : Except String Engine :=
  match fn with
  | .func src =>
      .ok { e with loadBuffer := e.loadBuffer ++ ["(" ++ src ++ ")();"] }
  | _ => .error "[NodeSculptor] .oncreate() expects a function."

/-- The mounting loop of `render` (lines 138-143): each falsy item throws
`Element at index ${index} is undefined.`, a non-node item makes `appendChild`
throw, valid items are appended in order. -/
def mountItems (acc : List BodyNode) (idx : Nat) :
    List RootItem → List BodyNode × Option String
  | [] => (acc, none)
  | .nodeEl ed :: rest => mountItems (acc ++ [.node ed.toNode]) (idx + 1) rest
  | .raw n :: rest => mountItems (acc ++ [.node n]) (idx + 1) rest
  | .falsy :: _ =>
      (acc, some ("Element at index " ++ Nat.repr idx ++ " is undefined."))
  | .invalid msg :: _ => (acc, some msg)

/-- `render(root, config)`, lines 121-163, acting on the module-level shared
document.  A falsy root throws before any mutation; the title defaults to the
empty string (`config.title || ""`); the style buffer, when non-empty, is
flushed into a head style tag joined with newlines; the script tag is
appended (and the script/load buffers cleared) only when there is something
to emit.  Every throw is caught at the top and logged. -/
def render (e : Engine) (d : Doc) (root : Option (SingleOrMany RootItem))
    (title? : Option String) : (Engine × Doc) × List String :=
  match root with
  | none =>
      ((e, d), ["[NodeSculptor Render Error] No root element provided to render."])
  | some rootSpec =>
      let d1 : Doc := { d with title := title?.getD "", body := [] }
      let p :=
        if e.styleBuffer = [] then (d1, e)
        else ({ d1 with headExtra := d1.headExtra
                  ++ [HeadChild.styleTag
                        ("\n" ++ String.intercalate "\n" e.styleBuffer ++ "\n")] },
              { e with styleBuffer := [] })
      match mountItems p.1.body 0 rootSpec.toList with
      | (partialBody, some msg) =>
          ((p.2, { p.1 with body := partialBody }),
           ["[NodeSculptor Render Error] " ++ msg])
      | (body1, none) =>
          let finalScripts :=
            p.2.scriptBuffer ++
            (if p.2.loadBuffer = [] then []
             else ["window.addEventListener('load', () => \x7b\n  "
                    ++ String.intercalate "\n  " p.2.loadBuffer ++ "\n\x7d);"])
          if finalScripts = [] then
            let d3 : Doc := { p.1 with body := body1 }
            (({ p.2 with lastRendered := serializeDoc d3 }, d3), [])
          else
            let d3 : Doc := { p.1 with body := body1
                ++ [BodyNode.scriptRaw
                      ("\n" ++ String.intercalate "\n" finalScripts ++ "\n")] }
            (({ p.2 with
                 scriptBuffer := [], loadBuffer := [],
                 lastRendered := serializeDoc d3 }, d3), [])

/-- `output()`, lines 175-177. -/
def output (e : Engine) : String := e.lastRendered

/-- `create(tag)`, line 115, and its shorthands (lines 116-119). -/
def create (tag : String) : ElementData := { tag := tag }

/-- Repeated `generateId` calls: the list of identifiers produced by the next
`n` calls, threading the engine state. -/
def genIds (e : Engine) : Nat → List String
  | 0 => []
  | n + 1 => (generateId e).1 :: genIds (generateId e).2 n

/-- Repeated `generateClassName` calls. -/
def genClassNames (e : Engine) : Nat → List String
  | 0 => []
  | n + 1 => (generateClassName e).1 :: genClassNames (generateClassName e).2 n

end SJ

namespace P0

/-- Repeated `generateId` calls on the `part_000` engine. -/
def genIds (e : Engine) : Nat → List String
  | 0 => []
  | n + 1 => (generateId e).1 :: genIds (generateId e).2 n

end P0

/-! Decimal-rendering facts.  `Sculptor.js` builds its identifiers from
`Nat.repr` of the incremented counters; the uniqueness argument needs that
decimal strings consist of digit characters only (in particular never a dash)
and that `Nat.repr` is injective. -/

/-- Reference decimal digit list, most significant digit first. -/
def decDigits (n : Nat) : List Char :=
  if _h : n < 10 then [Nat.digitChar n]
  else decDigits (n / 10) ++ [Nat.digitChar (n % 10)]
termination_by n
decreasing_by exact Nat.div_lt_self (by omega) (by omega)

/-- Left inverse of decimal rendering, for the injectivity argument. -/
def parseDigits (l : List Char) : Nat :=
  l.foldl (fun a c => a * 10 + (c.toNat - 48)) 0

theorem toDigitsCore_eq_decDigits :
    ∀ (fuel n : Nat) (ds : List Char), n < fuel →
      Nat.toDigitsCore 10 fuel n ds = decDigits n ++ ds := by
  intro fuel
  induction fuel with
  | zero => intro n ds h; exact absurd h (Nat.not_lt_zero n)
  | succ f ih =>
    intro n ds h
    rw [Nat.toDigitsCore]
    by_cases h10 : n / 10 = 0
    · have hlt : n < 10 := by omega
      simp only [h10, if_pos]
      rw [decDigits, dif_pos hlt, Nat.mod_eq_of_lt hlt]
      simp
    · have hge : ¬ n < 10 := by omega
      have hfuel : n / 10 < f := by omega
      simp only [h10, if_neg, ite_false]
      rw [ih (n / 10) (Nat.digitChar (n % 10) :: ds) hfuel]
      conv_rhs => rw [decDigits, dif_neg hge]
      simp

theorem repr_data_eq (n : Nat) : (Nat.repr n).data = decDigits n := by
  have h : Nat.repr n = (Nat.toDigitsCore 10 (n + 1) n []).asString := rfl
  rw [h, toDigitsCore_eq_decDigits (n + 1) n [] (Nat.lt_succ_self n)]
  simp [List.asString]

theorem digitChar_isDigit {m : Nat} (h : m < 10) :
    (Nat.digitChar m).isDigit = true := by
  interval_cases m <;> decide

theorem decDigits_isDigit (n : Nat) : ∀ c ∈ decDigits n, c.isDigit = true := by
  induction n using decDigits.induct with
  | case1 n h =>
    rw [decDigits, dif_pos h]
    intro c hc
    simp at hc
    subst hc
    exact digitChar_isDigit h
  | case2 n h ih =>
    rw [decDigits, dif_neg h]
    intro c hc
    rcases List.mem_append.mp hc with h1 | h2
    · exact ih c h1
    · simp at h2
      subst h2
      exact digitChar_isDigit (Nat.mod_lt _ (by omega))

theorem digitChar_toNat {m : Nat} (h : m < 10) :
    (Nat.digitChar m).toNat = 48 + m := by
  interval_cases m <;> decide

theorem parseDigits_decDigits (n : Nat) : parseDigits (decDigits n) = n := by
  induction n using decDigits.induct with
  | case1 n h =>
    rw [decDigits, dif_pos h]
    simp [parseDigits, digitChar_toNat h]
  | case2 n h ih =>
    rw [decDigits, dif_neg h]
    unfold parseDigits
    rw [List.foldl_append]
    unfold parseDigits at ih
    rw [ih]
    simp [digitChar_toNat (Nat.mod_lt n (show 10 > 0 by decide))]
    omega

theorem repr_inj {m n : Nat} (h : Nat.repr m = Nat.repr n) : m = n := by
  have h2 := congrArg String.data h
  rw [repr_data_eq, repr_data_eq] at h2
  have h3 := congrArg parseDigits h2
  rwa [parseDigits_decDigits, parseDigits_decDigits] at h3

theorem repr_no_dash (n : Nat) : '-' ∉ (Nat.repr n).data := by
  rw [repr_data_eq]
  intro hm
  have := decDigits_isDigit n '-' hm
  simp [Char.isDigit] at this

theorem append_dash_inj :
    ∀ (a b s t : List Char), '-' ∉ a → '-' ∉ b →
      a ++ '-' :: s = b ++ '-' :: t → a = b ∧ s = t := by
  intro a
  induction a with
  | nil =>
    intro b s t _ hb h
    cases b with
    | nil => simpa using h
    | cons c bs =>
      simp only [List.nil_append, List.cons_append, List.cons.injEq] at h
      exact absurd (List.mem_cons_self c bs) (h.1 ▸ hb)
  | cons c as ih =>
    intro b s t ha hb h
    cases b with
    | nil =>
      simp only [List.nil_append, List.cons_append, List.cons.injEq] at h
      exact absurd (List.mem_cons_self c as) ((h.1.symm) ▸ ha)
    | cons d bs =>
      simp only [List.cons_append, List.cons.injEq] at h
      obtain ⟨rfl, h2⟩ := h
      have ha' : '-' ∉ as := fun hx => ha (List.mem_cons_of_mem _ hx)
      have hb' : '-' ∉ bs := fun hx => hb (List.mem_cons_of_mem _ hx)
      obtain ⟨h3, h4⟩ := ih bs s t ha' hb' h2
      exact ⟨by rw [h3], h4⟩

/-- Whatever the random suffixes, equal `Sculptor.js` element identifiers force
equal counters: the counter digits end at the first dash after the prefix. -/
theorem sjId_inj {i j : Nat} {s t : String}
    (h : "sc-id-" ++ Nat.repr i ++ "-" ++ s = "sc-id-" ++ Nat.repr j ++ "-" ++ t) :
    i = j := by
  have hd := congrArg String.data h
  simp only [String.data_append] at hd
  have hd2 : (Nat.repr i).data ++ '-' :: s.data =
      (Nat.repr j).data ++ '-' :: t.data := by
    have h6 : "sc-id-".data ++ ((Nat.repr i).data ++ '-' :: s.data)
        = "sc-id-".data ++ ((Nat.repr j).data ++ '-' :: t.data) := by
      simpa [List.append_assoc] using hd
    exact List.append_cancel_left h6
  have := append_dash_inj _ _ _ _ (repr_no_dash i) (repr_no_dash j) hd2
  have h3 := congrArg parseDigits ((repr_data_eq i) ▸ (repr_data_eq j) ▸ this.1)
  rwa [parseDigits_decDigits, parseDigits_decDigits] at h3

/-- Equal `Sculptor.js` class names force equal counters. -/
theorem sjCls_inj {i j : Nat}
    (h : "sc-cls-" ++ Nat.repr i = "sc-cls-" ++ Nat.repr j) : i = j := by
  have hd := congrArg String.data h
  simp only [String.data_append] at hd
  have := List.append_cancel_left hd
  have h3 := congrArg parseDigits ((repr_data_eq i) ▸ (repr_data_eq j) ▸ this)
  rwa [parseDigits_decDigits, parseDigits_decDigits] at h3

theorem string_eq_of_data {x y : String} (h : x.data = y.data) : x = y := by
  cases x
  cases y
  exact congrArg String.mk h

/-- Closed form of `Sculptor.js` `genIds`: the `k`-th identifier carries the
incremented counter and the `k`-th random suffix. -/
theorem sjGenIds_eq : ∀ (N : Nat) (e : SJ.Engine),
    SJ.genIds e N = (List.range N).map
      (fun k => "sc-id-" ++ Nat.repr (e.idCounter + k + 1) ++ "-"
        ++ (e.rand (e.randIdx + k)).take 3) := by
  intro N
  induction N with
  | zero => intro e; rfl
  | succ n ih =>
    intro e
    rw [SJ.genIds, ih, List.range_succ_eq_map, List.map_cons, List.map_map]
    refine congr (congrArg List.cons ?_) ?_
    · simp [SJ.generateId]
    · apply List.map_congr_left
      intro k hk
      simp only [SJ.generateId, Function.comp, Nat.succ_eq_add_one]
      have h1 : e.idCounter + 1 + k + 1 = e.idCounter + (k + 1) + 1 := by omega
      have h2 : e.randIdx + 1 + k = e.randIdx + (k + 1) := by omega
      rw [h1, h2]

/-- Closed form of `Sculptor.js` `genClassNames`. -/
theorem sjGenClassNames_eq : ∀ (N : Nat) (e : SJ.Engine),
    SJ.genClassNames e N = (List.range N).map
      (fun k => "sc-cls-" ++ Nat.repr (e.classCounter + k + 1)) := by
  intro N
  induction N with
  | zero => intro e; rfl
  | succ n ih =>
    intro e
    rw [SJ.genClassNames, ih, List.range_succ_eq_map, List.map_cons, List.map_map]
    refine congr (congrArg List.cons ?_) ?_
    · simp [SJ.generateClassName]
    · apply List.map_congr_left
      intro k hk
      simp only [SJ.generateClassName, Function.comp, Nat.succ_eq_add_one]
      have h1 : e.classCounter + 1 + k + 1 = e.classCounter + (k + 1) + 1 := by omega
      rw [h1]

/-- Closed form of `part_000` `genIds`: the `k`-th identifier is an
underscore plus the seven-character cut of the `k`-th random draw. -/
theorem p0GenIds_eq : ∀ (N : Nat) (e : P0.Engine),
    P0.genIds e N = (List.range N).map
      (fun k => "_" ++ (e.rand (e.randIdx + k)).take 7) := by
  intro N
  induction N with
  | zero => intro e; rfl
  | succ n ih =>
    intro e
    rw [P0.genIds, ih, List.range_succ_eq_map, List.map_cons, List.map_map]
    refine congr (congrArg List.cons ?_) ?_
    · simp [P0.generateId]
    · apply List.map_congr_left
      intro k hk
      simp only [P0.generateId, Function.comp, Nat.succ_eq_add_one]
      have h2 : e.randIdx + 1 + k = e.randIdx + (k + 1) := by omega
      rw [h2]

/-! Association-list lemmas for the JS object operations. -/

theorem getKey_setKey_self {α : Type} (l : List (String × α)) (k : String) (v : α) :
    getKey (setKey l k v) k = some v := by
  induction l with
  | nil => simp [setKey, getKey]
  | cons p t ih =>
    by_cases hp : p.1 = k
    · simp [setKey, getKey, hp]
    · simp [setKey, getKey, hp, ih]

theorem getKey_setKey_other {α : Type} (l : List (String × α)) (k k' : String)
    (v : α) (h : k' ≠ k) : getKey (setKey l k v) k' = getKey l k' := by
  induction l with
  | nil => simp [setKey, getKey, Ne.symm h]
  | cons p t ih =>
    by_cases hp : p.1 = k
    · rw [setKey]
      simp only [hp, if_pos]
      rw [getKey, getKey]
      simp [hp, Ne.symm h]
    · rw [setKey]
      simp only [hp, if_neg, ite_false]
      rw [getKey, getKey]
      by_cases hp' : p.1 = k'
      · simp [hp']
      · simp [hp', ih]

theorem underscore_append_ne (s : String) : "_" ++ s ≠ "" := by
  intro h
  have h2 := congrArg String.data h
  simp [String.data_append] at h2

/-! Mounting-loop lemmas. -/

theorem P0.mountItems_ok : ∀ (items : List RootItem) (acc : List BodyNode),
    items.any RootItem.isBad = false →
    P0.mountItems acc items = (acc ++ items.map RootItem.toBody, none) := by
  intro items
  induction items with
  | nil => intro acc _; simp [P0.mountItems]
  | cons i t ih =>
    intro acc h
    simp only [List.any_cons, Bool.or_eq_false_iff] at h
    cases i with
    | nodeEl ed =>
      rw [P0.mountItems, ih _ h.2]
      simp [RootItem.toBody]
    | raw n =>
      rw [P0.mountItems, ih _ h.2]
      simp [RootItem.toBody]
    | falsy => exact absurd h.1 (by simp [RootItem.isBad])
    | invalid m => exact absurd h.1 (by simp [RootItem.isBad])

theorem P0.mountItems_err : ∀ (items : List RootItem) (acc : List BodyNode),
    items.any RootItem.isBad = true →
    ∃ b m, P0.mountItems acc items = (b, some m) := by
  intro items
  induction items with
  | nil => intro acc h; simp at h
  | cons i t ih =>
    intro acc h
    cases i with
    | nodeEl ed =>
      simp only [List.any_cons, RootItem.isBad, Bool.false_or] at h
      obtain ⟨b, m, hm⟩ := ih (acc ++ [.node ed.toNode]) h
      exact ⟨b, m, by rw [P0.mountItems, hm]⟩
    | raw n =>
      simp only [List.any_cons, RootItem.isBad, Bool.false_or] at h
      obtain ⟨b, m, hm⟩ := ih (acc ++ [.node n]) h
      exact ⟨b, m, by rw [P0.mountItems, hm]⟩
    | falsy => exact ⟨acc, appendChildErr, by rw [P0.mountItems]⟩
    | invalid m => exact ⟨acc, m, by rw [P0.mountItems]⟩

/-! Shape of one `part_000` `render` call. -/

/-- On a successful render: buffers are cleared, the state table is kept, no
error is logged, and the body ends in a script tag carrying this call's
reference table, state seed and buffered statements. -/
theorem P0.render_ok_fields (e : P0.Engine) (r : SingleOrMany RootItem)
    (c : P0.Config) (h : r.toList.any RootItem.isBad = false) :
    (P0.render e r c).1.scriptBuffer = [] ∧
    (P0.render e r c).1.loadBuffer = [] ∧
    (P0.render e r c).1.refs = [] ∧
    (P0.render e r c).1.styleBuffer = [] ∧
    (P0.render e r c).1.stateBuffer = e.stateBuffer ∧
    (P0.render e r c).2 = [] ∧
    P0.runtimeOf (P0.render e r c).1.doc
      = some { refs := e.refs, state := e.stateBuffer,
               stmts := e.scriptBuffer, load := e.loadBuffer } := by
  simp only [P0.render]
  rw [P0.mountItems_ok r.toList [] h]
  simp [P0.runtimeOf, List.getLast?_concat]

/-- On a render whose mounting step throws: `lastRendered` is untouched and
one prefixed error line is logged. -/
theorem P0.render_err_fields (e : P0.Engine) (r : SingleOrMany RootItem)
    (c : P0.Config) (h : r.toList.any RootItem.isBad = true) :
    (P0.render e r c).1.lastRendered = e.lastRendered ∧
    ∃ m, (P0.render e r c).2 = ["[NodeSculptor Render Error] " ++ m] := by
  simp only [P0.render]
  obtain ⟨b, m, hm⟩ := P0.mountItems_err r.toList [] h
  rw [hm]
  exact ⟨rfl, m, rfl⟩

/-- Whether mounting succeeds or throws, one render call replaces the title,
appends this call's head children after the existing ones, and leaves the
style buffer flushed. -/
theorem P0.render_head (e : P0.Engine) (r : SingleOrMany RootItem)
    (c : P0.Config) :
    (P0.render e r c).1.doc.headExtra
        = e.doc.headExtra ++ P0.headAdds c e.styleBuffer ∧
    (P0.render e r c).1.doc.title = P0.titleOf c ∧
    (P0.render e r c).1.styleBuffer = [] := by
  simp only [P0.render]
  split <;> simp

/-! Identifier-hook lemmas for the at-most-once id invariant. -/

theorem P0.applyHook_keeps_id (p : ElementData × P0.Engine) (h : P0.Hook)
    (hne : p.1.id ≠ "") : (P0.applyHook p h).1.id = p.1.id := by
  cases h <;>
    simp [P0.applyHook, P0.NodeElement.ref, P0.NodeElement.bind,
      P0.NodeElement.onEv, P0.NodeElement.click, hne]

theorem P0.applyHook_id_ne (p : ElementData × P0.Engine) (h : P0.Hook) :
    (P0.applyHook p h).1.id ≠ "" := by
  cases h <;> (
    by_cases hid : p.1.id = "" <;>
      simp [P0.applyHook, P0.NodeElement.ref, P0.NodeElement.bind,
        P0.NodeElement.onEv, P0.NodeElement.click, hid, P0.generateId,
        underscore_append_ne])

theorem P0.applyHooks_keeps_id : ∀ (hs : List P0.Hook)
    (q : ElementData × P0.Engine),
    q.1.id ≠ "" → (P0.applyHooks q hs).1.id = q.1.id := by
  intro hs
  induction hs with
  | nil => intro q _; rfl
  | cons h t ih =>
    intro q hq
    show (P0.applyHooks (P0.applyHook q h) t).1.id = q.1.id
    rw [ih _ (by rw [P0.applyHook_keeps_id q h hq]; exact hq)]
    exact P0.applyHook_keeps_id q h hq

/-! The claims. -/

/-- C1, counterexample.  The claim asserts that N allocator calls always
yield N pairwise-distinct strings.  In the `part_000` allocator
(`generateId` returns `_` plus a `Math.random` token) a random stream that
repeats a token makes two consecutive ids equal, so already N = 2 ≤ 10000
calls can collide: randomness alone carries no uniqueness guarantee. -/
theorem C1_counterexample :
    P0.genIds { rand := fun _ => "aaaaaaa" } 2 = ["_aaaaaaa", "_aaaaaaa"] ∧
    ¬ (P0.genIds { rand := fun _ => "aaaaaaa" } 2).Nodup := by
  refine ⟨rfl, ?_⟩
  decide

/-- C1, amended.  In the counter-based allocator of `src/Sculptor.js`, any
number of `generateId` calls (and, separately, `generateClassName` calls)
yields pairwise-distinct strings, for every starting engine state and every
random-suffix stream; the random-token allocator of `part_000` yields
distinct ids only when the seven-character cuts of the drawn tokens are
pairwise distinct. -/
theorem C1_amended :
    (∀ (e : SJ.Engine) (N : Nat), (SJ.genIds e N).Nodup) ∧
    (∀ (e : SJ.Engine) (N : Nat), (SJ.genClassNames e N).Nodup) ∧
    (∀ (e : P0.Engine) (N : Nat),
      (∀ i < N, ∀ j < N, i ≠ j →
        (e.rand (e.randIdx + i)).take 7 ≠ (e.rand (e.randIdx + j)).take 7) →
      (P0.genIds e N).Nodup) := by
  refine ⟨?_, ?_, ?_⟩
  · intro e N
    rw [sjGenIds_eq]
    refine List.Nodup.map ?_ (List.nodup_range N)
    intro a b hab
    have := sjId_inj hab
    omega
  · intro e N
    rw [sjGenClassNames_eq]
    refine List.Nodup.map ?_ (List.nodup_range N)
    intro a b hab
    have := sjCls_inj hab
    omega
  · intro e N hdist
    rw [p0GenIds_eq]
    refine List.Nodup.map_on ?_ (List.nodup_range N)
    intro i hi j hj hfeq
    by_contra hne
    apply hdist i (List.mem_range.mp hi) j (List.mem_range.mp hj) hne
    have hd := congrArg String.data hfeq
    simp only [String.data_append] at hd
    exact string_eq_of_data (List.append_cancel_left hd)

/-- Witness for C1_amended at concrete inputs. -/
theorem C1_amended_witness :
    (SJ.genIds { rand := fun _ => "abc" } 3).Nodup ∧
    (P0.genIds { rand := fun k => Nat.repr k } 3).Nodup :=
  ⟨C1_amended.1 { rand := fun _ => "abc" } 3,
   C1_amended.2.2 { rand := fun k => Nat.repr k } 3 (by decide)⟩

/-- C2: when the mounting step of `part_000`'s `render` throws (a falsy root
item or one `appendChild` rejects), the error is caught inside `render`
(`render` is a total function here: it returns instead of propagating), one
line is logged with the `[NodeSculptor Render Error]` prefix, and the
engine's previous `lastRendered` value is left unchanged. -/
theorem C2_theorem (e : P0.Engine) (root : SingleOrMany RootItem)
    (cfg : P0.Config) (h : root.toList.any RootItem.isBad = true) :
    (P0.render e root cfg).1.lastRendered = e.lastRendered ∧
    ∃ m, (P0.render e root cfg).2 = ["[NodeSculptor Render Error] " ++ m] :=
  P0.render_err_fields e root cfg h

/-- Witness for C2_theorem: a render whose root is a falsy item keeps the
previous output and logs a prefixed error. -/
theorem C2_witness :
    (P0.render { rand := fun _ => "r", lastRendered := "prev" }
        (.one .falsy) {}).1.lastRendered = "prev" ∧
    ∃ m, (P0.render { rand := fun _ => "r", lastRendered := "prev" }
        (.one .falsy) {}).2 = ["[NodeSculptor Render Error] " ++ m] :=
  C2_theorem { rand := fun _ => "r", lastRendered := "prev" }
    (.one .falsy) {} (by decide)

/-- C3, counterexample.  The claim says head metadata from the first render
is cleared and does not accumulate into the second render's head.  In the
code the head is never cleared (only the body is), so the meta tag of the
first call is still a head child of the document after the second call. -/
theorem C3_counterexample :
    HeadChild.metaTag [("name", "desc1")] ∈
      (P0.render
        (P0.render { rand := fun _ => "r" }
          (.one (.nodeEl (P0.create "div")))
          { metaTags := some (.one [("name", "desc1")]) }).1
        (.one (.nodeEl (P0.create "div")))
        { metaTags := some (.one [("name", "desc2")]) }).1.doc.headExtra := by
  decide

/-- C3, amended.  Across two successive renders the title is rebuilt from the
second call's configuration alone, but the head children accumulate: the
second document's extra head children are exactly those of the first render
followed by the children contributed by the second call's configuration and
style buffer. -/
theorem C3_amended (e : P0.Engine) (r1 r2 : SingleOrMany RootItem)
    (c1 c2 : P0.Config) :
    (P0.render (P0.render e r1 c1).1 r2 c2).1.doc.headExtra
        = (P0.render e r1 c1).1.doc.headExtra
          ++ P0.headAdds c2 (P0.render e r1 c1).1.styleBuffer ∧
    (P0.render (P0.render e r1 c1).1 r2 c2).1.doc.title = P0.titleOf c2 :=
  ⟨(P0.render_head (P0.render e r1 c1).1 r2 c2).1,
   (P0.render_head (P0.render e r1 c1).1 r2 c2).2.1⟩

/-- C4: registering `ref(name)` on an element and rendering it produces a
trailing script whose reference table maps `name` to that element's
identifier — the explicit id when the element had one, otherwise the id
generated at `ref` time. -/
theorem C4_theorem (ed : ElementData) (e : P0.Engine) (name : String)
    (cfg : P0.Config) :
    ∃ rt, P0.runtimeOf
        (P0.render (P0.NodeElement.ref ed e name).2
          (.one (.nodeEl (P0.NodeElement.ref ed e name).1)) cfg).1.doc
        = some rt ∧
      getKey rt.refs name = some (P0.NodeElement.ref ed e name).1.id ∧
      (P0.NodeElement.ref ed e name).1.id
        = (if ed.id = "" then (P0.generateId e).1 else ed.id) := by
  have hok : (SingleOrMany.one
      (RootItem.nodeEl (P0.NodeElement.ref ed e name).1)).toList.any
        RootItem.isBad = false := by
    simp [SingleOrMany.toList, RootItem.isBad]
  obtain ⟨_, _, _, _, _, _, hrt⟩ :=
    P0.render_ok_fields (P0.NodeElement.ref ed e name).2 _ cfg hok
  refine ⟨_, hrt, ?_, ?_⟩
  · show getKey (P0.NodeElement.ref ed e name).2.refs name = _
    by_cases hid : ed.id = "" <;>
      simp [P0.NodeElement.ref, hid, P0.generateId, getKey_setKey_self]
  · by_cases hid : ed.id = "" <;>
      simp [P0.NodeElement.ref, hid, P0.generateId]

/-- C5: the emitted state proxy's `set` trap is a no-op (no storage change,
zero dispatched watchers) when the written value equals the stored one, and
otherwise stores the value, changes no other key, and dispatches exactly the
watchers registered for that key, in registration order. -/
theorem C5_theorem (store : List (String × JsVal)) (regs : List (String × String))
    (k : String) (v : JsVal) :
    (getProp store k = v → P0.proxySet store regs k v = (store, [])) ∧
    (getProp store k ≠ v →
      getProp (P0.proxySet store regs k v).1 k = v ∧
      (∀ k2, k2 ≠ k →
        getProp (P0.proxySet store regs k v).1 k2 = getProp store k2) ∧
      (P0.proxySet store regs k v).2
        = (regs.filter (fun p => p.1 = k)).map (fun p => p.2)) := by
  constructor
  · intro h
    simp [P0.proxySet, h]
  · intro h
    simp only [getProp] at h
    refine ⟨?_, ?_, ?_⟩
    · simp [P0.proxySet, getProp, h, getKey_setKey_self]
    · intro k2 hk2
      simp [P0.proxySet, getProp, h, getKey_setKey_other _ _ _ _ hk2]
    · simp [P0.proxySet, getProp, h]

/-- Witness for C5_theorem: writing the stored value dispatches nothing and
keeps the store; writing a new value dispatches the two watchers registered
for the key, in order, skipping the watcher of the other key. -/
theorem C5_witness :
    P0.proxySet [("a", JsVal.num 1)] [("a", "f"), ("b", "g"), ("a", "h")]
        "a" (JsVal.num 1) = ([("a", JsVal.num 1)], []) ∧
    (P0.proxySet [("a", JsVal.num 1)] [("a", "f"), ("b", "g"), ("a", "h")]
        "a" (JsVal.num 2)).2 = ["f", "h"] := by
  constructor
  · exact (C5_theorem [("a", JsVal.num 1)] [("a", "f"), ("b", "g"), ("a", "h")]
      "a" (JsVal.num 1)).1 (by decide)
  · rw [(C5_theorem [("a", JsVal.num 1)] [("a", "f"), ("b", "g"), ("a", "h")]
      "a" (JsVal.num 2)).2 (by decide) |>.2.2]
    decide

/-- C6: the `text` setter stores its argument as the element's lone text
child; the serialized element renders that text escaped, and the escaped
text contains no raw `<` or `>` — so no raw executable markup. -/
theorem C6_theorem (ed : ElementData) (s : String) :
    (P0.NodeElement.text ed s).children = [DomNode.textNode s] ∧
    serializeNode (P0.NodeElement.text ed s).toNode
      = serializeOpenTag ed.tag ed.id ed.classes ed.attrs
        ++ escapeText s ++ "</" ++ ed.tag ++ ">" ∧
    ∀ c ∈ (escapeText s).data, c ≠ '<' ∧ c ≠ '>' := by
  refine ⟨rfl, ?_, ?_⟩
  · simp [P0.NodeElement.text, ElementData.toNode, serializeNode,
      serializeNodes]
  · intro c hc
    have hc2 : c ∈ (s.data.map (fun c0 => (escapeChar c0).data)).flatten := hc
    rw [List.mem_flatten] at hc2
    obtain ⟨l, hl, hcl⟩ := hc2
    obtain ⟨c0, _, rfl⟩ := List.mem_map.mp hl
    unfold escapeChar at hcl
    split_ifs at hcl with h1 h2 h3
    · exact (by decide : ∀ x ∈ "&amp;".data, x ≠ '<' ∧ x ≠ '>') c hcl
    · exact (by decide : ∀ x ∈ "&lt;".data, x ≠ '<' ∧ x ≠ '>') c hcl
    · exact (by decide : ∀ x ∈ "&gt;".data, x ≠ '<' ∧ x ≠ '>') c hcl
    · have : c = c0 := by simpa [String.singleton] using hcl
      subst this
      exact ⟨h2, h3⟩

/-- Witness for C6_theorem at the spec's canonical payload. -/
theorem C6_witness :
    serializeNode (P0.NodeElement.text (P0.create "div")
        "<script>alert(1)</script>").toNode
      = "<div>&lt;script&gt;alert(1)&lt;/script&gt;</div>" ∧
    ('<' ∈ (escapeText "<script>alert(1)</script>").data → False) := by
  constructor
  · exact (C6_theorem (P0.create "div") "<script>alert(1)</script>").2.1.trans
      (by decide)
  · intro hc
    exact ((C6_theorem (P0.create "div")
      "<script>alert(1)</script>").2.2 '<' hc).1 rfl

/-- C7: a non-callable where a handler is required makes `on`, `click`,
`oncreate` (engine) and `oncreate` (node) throw immediately at registration
time: each returns the error — produced before any push, so no buffer entry
is created and nothing is deferred to render. -/
theorem C7_theorem (el : ElementData) (e : P0.Engine) (ev : String)
    (v : JsVal) (h : v.isFunc = false) :
    P0.NodeElement.onEv el e ev v
        = .error "[NodeSculptor] .on expects a function." ∧
    P0.NodeElement.click el e v
        = .error "[NodeSculptor] .on expects a function." ∧
    P0.oncreate e v
        = .error "[NodeSculptor] .oncreate() expects a function." ∧
    P0.NodeElement.oncreate el e v
        = .error "[NodeSculptor] .oncreate() expects a function." := by
  cases v <;>
    simp_all [P0.NodeElement.onEv, P0.NodeElement.click, P0.oncreate,
      P0.NodeElement.oncreate, JsVal.isFunc, Except.map]

/-- Witness for C7_theorem: a string passed to `.on` is rejected. -/
theorem C7_witness :
    P0.NodeElement.onEv (P0.create "div") { rand := fun _ => "r" } "click"
        (JsVal.str "nope")
      = .error "[NodeSculptor] .on expects a function." :=
  (C7_theorem (P0.create "div") { rand := fun _ => "r" } "click"
    (JsVal.str "nope") (by decide)).1

/-- C8: a hook never overwrites an existing (explicit or generated)
identifier, and in any hook sequence the identifier after the first hook is
the one every later hook sees: an element's id is assigned at most once. -/
theorem C8_theorem :
    (∀ (p : ElementData × P0.Engine) (h : P0.Hook),
        p.1.id ≠ "" → (P0.applyHook p h).1.id = p.1.id) ∧
    (∀ (p : ElementData × P0.Engine) (h : P0.Hook) (hs : List P0.Hook),
        (P0.applyHooks p (h :: hs)).1.id = (P0.applyHook p h).1.id) := by
  refine ⟨fun p h => P0.applyHook_keeps_id p h, ?_⟩
  intro p h hs
  show (P0.applyHooks (P0.applyHook p h) hs).1.id = _
  exact P0.applyHooks_keeps_id hs _ (P0.applyHook_id_ne p h)

/-- Witness for C8_theorem: an explicit id survives a `ref` hook, and a
`click`-generated id survives a following `ref` hook. -/
theorem C8_witness :
    (P0.applyHook ({ tag := "div", id := "x" }, { rand := fun _ => "r" })
        (P0.Hook.refH "n")).1.id = "x" ∧
    (P0.applyHooks ({ tag := "div" }, { rand := fun _ => "r" })
        [P0.Hook.clickH "f", P0.Hook.refH "n"]).1.id
      = (P0.applyHook ({ tag := "div" }, { rand := fun _ => "r" })
        (P0.Hook.clickH "f")).1.id :=
  ⟨C8_theorem.1 ({ tag := "div", id := "x" }, { rand := fun _ => "r" })
      (P0.Hook.refH "n") (by decide),
   C8_theorem.2 ({ tag := "div" }, { rand := fun _ => "r" })
      (P0.Hook.clickH "f") [P0.Hook.refH "n"]⟩

/-- C9, counterexample.  In `src/Sculptor.js` the JSDOM document is created
at module level and shared by all engine instances.  A fresh engine B renders
a plain div; its output differs depending on whether another engine A
(which defined a style class and rendered) acted first, because A's render
flushed its stylesheet into the shared head.  So operations on one instance
do not leave the other instance's document (and render output) unchanged. -/
theorem C9_counterexample :
    (SJ.render { rand := fun _ => "r" }
        (SJ.render (SJ.defineClass { rand := fun _ => "r" } "boxA"
            [("color", "red")])
          Doc.init (some (.one (.nodeEl (SJ.create "div")))) none).1.2
        (some (.one (.nodeEl (SJ.create "div")))) none).1.1.lastRendered
      ≠
    (SJ.render { rand := fun _ => "r" } Doc.init
        (some (.one (.nodeEl (SJ.create "div")))) none).1.1.lastRendered := by
  decide

/-- C9, amended.  In the `part_000` variant each engine owns its document
(the constructor makes a fresh JSDOM per instance) and its buffers, so any
sequence of operations applied to one engine of a pair leaves the other
engine's whole state — and hence the result of any render it performs —
unchanged.  The isolation is definitional in this embedding precisely
because no state is shared between the two engine values. -/
theorem C9_amended (a b : P0.Engine) (ops : List P0.EngineOp)
    (r : SingleOrMany RootItem) (c : P0.Config) :
    ((P0.applyOps a ops, b) : P0.Engine × P0.Engine).2 = b ∧
    P0.render ((P0.applyOps a ops, b) : P0.Engine × P0.Engine).2 r c
      = P0.render b r c :=
  ⟨rfl, rfl⟩

/-- C10: a successful render clears the script, lifecycle and reference
buffers and flushes the style buffer, but never clears the state table; two
renders with no registrations in between therefore emit the same serialized
state seed, and the second runtime carries no behavior statements and an
empty reference table. -/
theorem C10_theorem (e : P0.Engine) (r1 r2 : SingleOrMany RootItem)
    (c1 c2 : P0.Config)
    (h1 : r1.toList.any RootItem.isBad = false)
    (h2 : r2.toList.any RootItem.isBad = false) :
    (P0.render e r1 c1).1.scriptBuffer = [] ∧
    (P0.render e r1 c1).1.loadBuffer = [] ∧
    (P0.render e r1 c1).1.refs = [] ∧
    (P0.render e r1 c1).1.styleBuffer = [] ∧
    (P0.render e r1 c1).1.stateBuffer = e.stateBuffer ∧
    (P0.runtimeOf (P0.render e r1 c1).1.doc).map Runtime.state
      = some e.stateBuffer ∧
    P0.runtimeOf (P0.render (P0.render e r1 c1).1 r2 c2).1.doc
      = some { refs := [], state := e.stateBuffer, stmts := [], load := [] } := by
  obtain ⟨ha, hb, hc, hd, he, _, hg⟩ := P0.render_ok_fields e r1 c1 h1
  obtain ⟨_, _, _, _, _, _, hg2⟩ :=
    P0.render_ok_fields (P0.render e r1 c1).1 r2 c2 h2
  refine ⟨ha, hb, hc, hd, he, ?_, ?_⟩
  · simp [hg]
  · rw [hg2, ha, hb, hc, he]

/-- Witness for C10_theorem: one state key, two renders of a div. -/
theorem C10_witness :
    P0.runtimeOf
        (P0.render
          (P0.render (P0.state { rand := fun _ => "r" } "count" (JsVal.num 0))
            (.one (.nodeEl (P0.create "div"))) {}).1
          (.one (.nodeEl (P0.create "div"))) {}).1.doc
      = some { refs := [], state := [("count", JsVal.num 0)],
               stmts := [], load := [] } :=
  (C10_theorem (P0.state { rand := fun _ => "r" } "count" (JsVal.num 0))
    (.one (.nodeEl (P0.create "div"))) (.one (.nodeEl (P0.create "div")))
    {} {} (by decide) (by decide)).2.2.2.2.2.2

end NodeSculptor
